import Mathlib

/-!
Verification of the hybrid ensemble training-and-screening engine
(`src/models/train_hybrid.py`, `src/screening/screen_hybrid.py`,
`src/sentiment/news_sentiment.py`, `src/config.py`).

Shallow embedding conventions:
* machine floats are modelled as rationals (`ℚ`); `np.nan` used as the
  "no local probability" marker is modelled as `Option.none`
  (`screen_hybrid.py` line 173 tests `np.isnan` before fusing);
* pandas DataFrames are modelled as Lean lists of row structures;
  `sort_values(..., ascending=False)` is modelled as a merge sort with the
  corresponding comparator, `head(n)` as `List.take n`;
* the opaque trained classifiers (LightGBM models) are modelled as
  parameters: a global probability function and a per-row optional local
  probability function (exceptions during local inference are caught in the
  source and yield "no local probability", hence `Option`);
* fallible code is modelled with `Except` / `Option`.
-/

namespace AutoScreening

/-! ## Configuration constants (`src/config.py`) -/

/-- Constant `config.LOCAL_MIN_SAMPLES = 100`. -/
def LOCAL_MIN_SAMPLES : Nat := 100

/-- Constant `config.GLOBAL_WEIGHT = 0.6`. -/
def GLOBAL_WEIGHT : ℚ := 6/10

/-- Constant `config.LOCAL_WEIGHT = 0.4`. -/
def LOCAL_WEIGHT : ℚ := 4/10

/-- Constant `config.MIN_VOLUME = 500000`. -/
def MIN_VOLUME : ℚ := 500000

/-- Constant `config.TOP_N = 6`. -/
def TOP_N : Nat := 6

/-- Constant `config.MIN_PROB = 0.5`. -/
def MIN_PROB : ℚ := 1/2

/-- Constant `config.SENTIMENT_TOP_N = 30`. -/
def SENTIMENT_TOP_N : Nat := 30

/-- Constant `config.SENTIMENT_MIN_SCORE = 4`. -/
def SENTIMENT_MIN_SCORE : Int := 4

/-- Constant `config.SENTIMENT_DEFAULT_SCORE = 3`. -/
def SENTIMENT_DEFAULT_SCORE : Int := 3

/-- Constant `config.FEATURE_COLS`: the configured feature-column names. -/
def FEATURE_COLS : List String :=
  ["Close", "Volume",
   "ma5", "ma25", "ma75",
   "ma5_ratio", "ma25_ratio", "ma75_ratio",
   "rsi14",
   "macd", "macd_signal", "macd_hist",
   "bb_upper", "bb_lower", "bb_width",
   "volume_ma5_ratio",
   "return_1d", "return_5d", "return_10d",
   "volatility_20d"]

/-! ## Artifact paths (`train_hybrid.py` 183-184, `screen_hybrid.py` 47-48) -/

/-- Model of `os.path.join(dir, name)` for a relative `name` (the only use here). -/
def os_path_join (dir name : String) : String := dir ++ "/" ++ name

/-- Python `ticker.replace(".", "_")`: with a one-character pattern and a
one-character replacement, replacing all occurrences is a character map. -/
def py_replace_dot_underscore (ticker : String) : String :=
  String.mk (ticker.data.map (fun c => if c = '.' then '_' else c))

/-- File name written by `train_local_models` (`train_hybrid.py` 183-184):
`safe_ticker = ticker.replace(".", "_")`, file `local_model_{safe_ticker}.pkl`. -/
def train_local_save_filename (ticker : String) : String :=
  "local_model_" ++ py_replace_dot_underscore ticker ++ ".pkl"

/-- File name probed by `_load_local_model` (`screen_hybrid.py` 47-48):
`safe_ticker = ticker.replace(".", "_")`, file `local_model_{safe_ticker}.pkl`. -/
def screen_local_load_filename (ticker : String) : String :=
  "local_model_" ++ py_replace_dot_underscore ticker ++ ".pkl"

/-! ## Hybrid fusion (`screen_hybrid.py` 170-179, `_hybrid_score`) -/

/-- Function `_hybrid_score` (`screen_hybrid.py` 170-177): if `prob_local` is NaN
(modelled `none`) return `prob_global`, else the weighted average. -/
def hybrid_score (global_weight local_weight pg : ℚ) (pl : Option ℚ) : ℚ :=
  match pl with
  | none => pg
  | some p => global_weight * pg + local_weight * p

/-! ## Claim C1 -/

/-- C1: the fusion rule is exact: undefined `prob_local` gives
`prob_hybrid = prob_global`; defined `prob_local` gives
`global_weight * prob_global + local_weight * prob_local`; in particular
`0.6 * 0.8 + 0.4 * 0.9 = 0.84` and, with no local model, `0.7 ↦ 0.7`. -/
theorem c1_fusion_rule :
    (∀ gw lw pg : ℚ, hybrid_score gw lw pg none = pg) ∧
    (∀ gw lw pg p : ℚ, hybrid_score gw lw pg (some p) = gw * pg + lw * p) ∧
    hybrid_score (6/10) (4/10) (8/10) (some (9/10)) = 84/100 ∧
    hybrid_score (6/10) (4/10) (7/10) none = 7/10 := by
  refine ⟨fun _ _ _ => rfl, fun _ _ _ _ => rfl, ?_, rfl⟩
  norm_num [hybrid_score]

/-! ## Claim C9 -/

/-- C9: with non-negative weights summing to 1 and probabilities in `[0,1]`
(the local one whenever defined), the hybrid score is defined and in `[0,1]`. -/
theorem c9_hybrid_in_unit_interval (gw lw pg : ℚ) (pl : Option ℚ)
    (hgw : 0 ≤ gw) (hlw : 0 ≤ lw) (hsum : gw + lw = 1)
    (hpg0 : 0 ≤ pg) (hpg1 : pg ≤ 1)
    (hpl : ∀ p, pl = some p → 0 ≤ p ∧ p ≤ 1) :
    0 ≤ hybrid_score gw lw pg pl ∧ hybrid_score gw lw pg pl ≤ 1 := by
  cases pl with
  | none => exact ⟨hpg0, hpg1⟩
  | some p =>
    obtain ⟨hp0, hp1⟩ := hpl p rfl
    constructor
    · have h1 : 0 ≤ gw * pg := mul_nonneg hgw hpg0
      have h2 : 0 ≤ lw * p := mul_nonneg hlw hp0
      simpa [hybrid_score] using add_nonneg h1 h2
    · have h1 : gw * pg ≤ gw := mul_le_of_le_one_right hgw hpg1
      have h2 : lw * p ≤ lw := mul_le_of_le_one_right hlw hp1
      have h3 : gw * pg + lw * p ≤ gw + lw := add_le_add h1 h2
      simpa [hybrid_score, hsum] using h3

/-- Witness for C9 at the default weights `0.6 / 0.4`,
`prob_global = 0.8`, `prob_local = 0.9`. -/
theorem c9_hybrid_in_unit_interval_witness :
    0 ≤ hybrid_score (6/10) (4/10) (8/10) (some (9/10)) ∧
    hybrid_score (6/10) (4/10) (8/10) (some (9/10)) ≤ 1 :=
  c9_hybrid_in_unit_interval (6/10) (4/10) (8/10) (some (9/10))
    (by norm_num) (by norm_num) (by norm_num) (by norm_num) (by norm_num)
    (fun p hp => by cases hp; norm_num)

/-! ## Claim C10 -/

/-- C10: the artifact path computed at training persist time
(`train_hybrid.py` 183-184) equals the one computed by the inference-time
loader (`screen_hybrid.py` 47-48) for every instrument and directory:
the save/load key round-trips. -/
theorem c10_save_load_path_roundtrip :
    ∀ (dir ticker : String),
      os_path_join dir (train_local_save_filename ticker) =
        os_path_join dir (screen_local_load_filename ticker) :=
  fun _ _ => rfl

/-! ## Local Trainer Loop (`train_hybrid.py` 112-209, `train_local_models`)

The per-row feature values play no role in the loop's control flow (the
classifier fit is opaque); a dataset row is modelled by its instrument code
and its target label.  Whether the `try` body (fit + `joblib.dump`) raises
for a given ticker is modelled by a predicate `fit_ok`. -/

/-- A row of the training dataset, restricted to the fields the local
trainer's control flow reads: `code` and `target`. -/
structure LSample where
  code : String
  target : Nat
deriving DecidableEq, Repr

/-- Outcome of one iteration of the local training loop, derived from the
branch taken in the loop body (`train_hybrid.py` 151-191). -/
inductive LocalOutcome
  | trained
  | skippedInsufficientData
  | skippedSingleClass
  | failed
deriving DecidableEq, Repr

/-- Return value of `train_local_models`, plus the `joblib.dump` calls
performed: `trained_tickers`, `skipped_tickers` (the source appends every
non-trained ticker to this one list), and the (ticker, file name) pairs
written. -/
structure LocalTrainResult where
  trained : List String
  skipped : List String
  writes : List (String × String)
deriving DecidableEq, Repr

/-- Lexicographic code-point order on character lists: the order Python's
`sorted` uses on strings. -/
def chars_le : List Char → List Char → Bool
  | [], _ => true
  | _ :: _, [] => false
  | a :: as, b :: bs => decide (a < b) || (a == b && chars_le as bs)

/-- Model of `sorted(dataset["code"].unique())` (`train_hybrid.py` 140): distinct
codes in first-occurrence order, then sorted ascending by code points.
(Python's sort is modelled by a structurally recursive insertion sort; both
produce an ascending ordering of the same distinct codes.) -/
def tickers_of (dataset : List LSample) : List String :=
  ((dataset.map (·.code)).dedup).insertionSort
    (fun a b => chars_le a.data b.data = true)

/-- The branch taken by the loop body of `train_local_models` for ticker `t`
(`train_hybrid.py` 152-191): partition by code; fewer than `min_samples`
rows → skip; fewer than 2 distinct targets (`y.nunique() < 2`) → skip;
otherwise fit and persist, with any exception caught (→ `failed`). -/
def local_gate (min_samples : Nat) (fit_ok : String → Bool)
    (dataset : List LSample) (t : String) : LocalOutcome :=
  let td := dataset.filter (fun r => r.code = t)
  if td.length < min_samples then .skippedInsufficientData
  else if ((td.map (·.target)).dedup).length < 2 then .skippedSingleClass
  else if fit_ok t then .trained
  else .failed

/-- One iteration of the loop body of `train_local_models`
(`train_hybrid.py` 151-206): same if-chain as `local_gate`, recording its
effect on the two result lists and the persisted files. -/
def train_local_step (min_samples : Nat) (fit_ok : String → Bool)
    (dataset : List LSample) (s : LocalTrainResult) (t : String) :
    LocalTrainResult :=
  let td := dataset.filter (fun r => r.code = t)
  if td.length < min_samples then { s with skipped := s.skipped ++ [t] }
  else if ((td.map (·.target)).dedup).length < 2 then
    { s with skipped := s.skipped ++ [t] }
  else if fit_ok t then
    { s with trained := s.trained ++ [t],
             writes := s.writes ++ [(t, train_local_save_filename t)] }
  else { s with skipped := s.skipped ++ [t] }

/-- Function `train_local_models` (`train_hybrid.py` 112-209): iterate the loop body
over the sorted distinct tickers, starting from empty result lists. -/
def train_local_models (min_samples : Nat) (fit_ok : String → Bool)
    (dataset : List LSample) : LocalTrainResult :=
  (tickers_of dataset).foldl (train_local_step min_samples fit_ok dataset)
    ⟨[], [], []⟩

theorem train_local_step_eq (min_samples : Nat) (fit_ok : String → Bool)
    (dataset : List LSample) (s : LocalTrainResult) (t : String) :
    train_local_step min_samples fit_ok dataset s t =
      if local_gate min_samples fit_ok dataset t = .trained then
        { s with trained := s.trained ++ [t],
                 writes := s.writes ++ [(t, train_local_save_filename t)] }
      else { s with skipped := s.skipped ++ [t] } := by
  unfold train_local_step local_gate
  by_cases h1 : (dataset.filter (fun r => r.code = t)).length < min_samples
  · simp [h1]
  · by_cases h2 :
      (((dataset.filter (fun r => r.code = t)).map (·.target)).dedup).length < 2
    · simp [h1, h2]
    · by_cases h3 : fit_ok t = true
      · simp [h1, h2, h3]
      · simp [h1, h2, h3]

/-- Characterization of the fold underlying `train_local_models`: the final
lists are the initial ones extended by the tickers filtered by their gate
outcome, the writes keyed accordingly. -/
theorem train_local_foldl_spec (min_samples : Nat) (fit_ok : String → Bool)
    (dataset : List LSample) :
    ∀ (ts : List String) (s : LocalTrainResult),
      (ts.foldl (train_local_step min_samples fit_ok dataset) s).trained =
        s.trained ++ ts.filter
          (fun t => local_gate min_samples fit_ok dataset t = .trained) ∧
      (ts.foldl (train_local_step min_samples fit_ok dataset) s).skipped =
        s.skipped ++ ts.filter
          (fun t => ¬ local_gate min_samples fit_ok dataset t = .trained) ∧
      (ts.foldl (train_local_step min_samples fit_ok dataset) s).writes =
        s.writes ++ (ts.filter
          (fun t => local_gate min_samples fit_ok dataset t = .trained)).map
            (fun t => (t, train_local_save_filename t)) := by
  intro ts
  induction ts with
  | nil => intro s; simp
  | cons t ts ih =>
    intro s
    obtain ⟨h1, h2, h3⟩ := ih (train_local_step min_samples fit_ok dataset s t)
    rw [List.foldl_cons] at *
    by_cases hg : local_gate min_samples fit_ok dataset t = .trained
    · refine ⟨?_, ?_, ?_⟩
      · rw [h1, train_local_step_eq, if_pos hg]
        simp [List.filter_cons, hg]
      · rw [h2, train_local_step_eq, if_pos hg]
        simp [List.filter_cons, hg]
      · rw [h3, train_local_step_eq, if_pos hg]
        simp [List.filter_cons, hg]
    · refine ⟨?_, ?_, ?_⟩
      · rw [h1, train_local_step_eq, if_neg hg]
        simp [List.filter_cons, hg]
      · rw [h2, train_local_step_eq, if_neg hg]
        simp [List.filter_cons, hg]
      · rw [h3, train_local_step_eq, if_neg hg]
        simp [List.filter_cons, hg]

/-! ## Claim C2 -/

/-- C2: a local artifact is written for `X` in a run only if `X`'s
partition of the dataset has at least `min_samples` rows and contains at
least two distinct target classes. -/
theorem c2_local_artifact_eligibility (min_samples : Nat)
    (fit_ok : String → Bool) (dataset : List LSample) (X p : String)
    (h : (X, p) ∈ (train_local_models min_samples fit_ok dataset).writes) :
    min_samples ≤ (dataset.filter (fun r => r.code = X)).length ∧
      2 ≤ (((dataset.filter (fun r => r.code = X)).map (·.target)).dedup).length := by
  have hw := (train_local_foldl_spec min_samples fit_ok dataset
    (tickers_of dataset) ⟨[], [], []⟩).2.2
  unfold train_local_models at h
  rw [hw] at h
  simp only [List.nil_append, List.mem_map, List.mem_filter] at h
  obtain ⟨t, ⟨_, hgate⟩, heq⟩ := h
  have ht : t = X := congrArg Prod.fst heq
  subst ht
  simp only [decide_eq_true_eq] at hgate
  unfold local_gate at hgate
  by_cases h1 : (dataset.filter (fun r => r.code = t)).length < min_samples
  · simp [h1] at hgate
  · by_cases h2 :
      (((dataset.filter (fun r => r.code = t)).map (·.target)).dedup).length < 2
    · simp [h1, h2] at hgate
    · exact ⟨Nat.le_of_not_lt h1, Nat.le_of_not_lt h2⟩

/-- Witness for C2: with `min_samples = 2` and a two-row, two-class dataset
for instrument `A`, the artifact write for `A` implies both conditions. -/
theorem c2_local_artifact_eligibility_witness :
    2 ≤ (([⟨"A", 0⟩, ⟨"A", 1⟩] : List LSample).filter
          (fun r => r.code = "A")).length ∧
      2 ≤ (((([⟨"A", 0⟩, ⟨"A", 1⟩] : List LSample).filter
          (fun r => r.code = "A")).map (·.target)).dedup).length :=
  c2_local_artifact_eligibility 2 (fun _ => true) [⟨"A", 0⟩, ⟨"A", 1⟩]
    "A" (train_local_save_filename "A") (by decide)

/-! ## Claim C5 -/

/-- C5 counterexample: the returned outcome does not record the skip
reason.  Two datasets in which instrument `B` is skipped for different
reasons (insufficient rows vs. single class, the outcomes derived from the
loop's own branches) produce identical return values, so the reasons are
merged into one undifferentiated `skipped_tickers` list. -/
theorem c5_counterexample_reasons_not_in_output :
    train_local_models 2 (fun _ => true)
        [⟨"A", 0⟩, ⟨"A", 1⟩, ⟨"B", 0⟩] =
      train_local_models 2 (fun _ => true)
        [⟨"A", 0⟩, ⟨"A", 1⟩, ⟨"B", 0⟩, ⟨"B", 0⟩] ∧
    local_gate 2 (fun _ => true) [⟨"A", 0⟩, ⟨"A", 1⟩, ⟨"B", 0⟩] "B" =
      .skippedInsufficientData ∧
    local_gate 2 (fun _ => true) [⟨"A", 0⟩, ⟨"A", 1⟩, ⟨"B", 0⟩, ⟨"B", 0⟩] "B" =
      .skippedSingleClass ∧
    LocalOutcome.skippedInsufficientData ≠ LocalOutcome.skippedSingleClass := by
  refine ⟨?_, by decide, by decide, by decide⟩
  decide

/-- C5 as amended: the output separates trained from non-trained tickers,
and an artifact is written exactly for the trained ones; but every
non-trained ticker — whether skipped for insufficient data, for a single
class, or failed during fit/persist — lands in the single `skipped` list,
with no reason tag in the returned outcome. -/
theorem c5_amended_outcome_shape (min_samples : Nat)
    (fit_ok : String → Bool) (dataset : List LSample) (t : String) :
    (t ∈ (train_local_models min_samples fit_ok dataset).trained ↔
      t ∈ tickers_of dataset ∧
        local_gate min_samples fit_ok dataset t = .trained) ∧
    (t ∈ (train_local_models min_samples fit_ok dataset).skipped ↔
      t ∈ tickers_of dataset ∧
        local_gate min_samples fit_ok dataset t ≠ .trained) ∧
    (train_local_models min_samples fit_ok dataset).writes =
      ((train_local_models min_samples fit_ok dataset).trained).map
        (fun t => (t, train_local_save_filename t)) := by
  obtain ⟨h1, h2, h3⟩ := train_local_foldl_spec min_samples fit_ok dataset
    (tickers_of dataset) ⟨[], [], []⟩
  unfold train_local_models
  rw [h1, h2, h3]
  simp [List.mem_filter]

/-! ## Global Trainer (`train_hybrid.py` 60-106, `train_global_model`)

Modelling notes, traced from the source:
* `feature_cols = [c for c in FEATURE_COLS if c in dataset.columns]`
  (line 79); the classifier fit itself is opaque and modelled as total,
  except that fitting on a zero-column input raises in scikit-learn input
  validation — the spec's name for this failure is `SchemaMismatch`;
* `train_test_split(..., test_size=0.2, shuffle=False)` (lines 83-85)
  takes the last `ceil(0.2 * n)` rows as validation and raises a
  `ValueError` when either side of the split is empty (n ≤ 1); over the
  naturals `ceil(n / 5) = (n + 4) / 5` (the float rounding of `0.2 * n`
  can add one to the validation size for some `n`, which never affects
  emptiness for `n ≥ 2`);
* `_evaluate` (lines 45-54) catches the `ValueError` that
  `roc_auc_score` raises on a single-class validation set and reports
  `nan`; the artifact dump (line 103) is unconditional after the fit.
The dataset is modelled by its column list and target column, the only
fields this control flow reads. -/

/-- The training dataset as seen by the global trainer: its columns and its
`target` column. -/
structure GDataset where
  columns : List String
  targets : List Nat
deriving DecidableEq, Repr

/-- How a global training run can fail. -/
inductive GlobalTrainError
  /-- No configured feature column is present: the zero-feature fit raises
  (the spec's `SchemaMismatch`). -/
  | schemaMismatch
  /-- `train_test_split` raises when the 80/20 split leaves the train or
  validation side empty (dataset of fewer than 2 rows). -/
  | emptySplit
deriving DecidableEq, Repr

/-- The persisted artifact `{"model": model, "feature_cols": feature_cols}`
(`train_hybrid.py` 103), the opaque model elided. -/
structure GlobalArtifact where
  feature_cols : List String
deriving DecidableEq, Repr

/-- Function `train_global_model` (`train_hybrid.py` 60-106).  Returns the persisted
artifact together with whether the AUC diagnostic was defined (`false`
models `auc = nan`, from the caught `ValueError` on a single-class
validation set). -/
def train_global_model (featureConfig : List String) (ds : GDataset) :
    Except GlobalTrainError (GlobalArtifact × Bool) :=
  let fc := featureConfig.filter (fun c => ds.columns.contains c)
  if fc.isEmpty then .error .schemaMismatch
  else
    let n := ds.targets.length
    let nVal := (n + 4) / 5
    if n - nVal = 0 then .error .emptySplit
    else
      let valTargets := ds.targets.drop (n - nVal)
      .ok (⟨fc⟩, decide (2 ≤ valTargets.dedup.length))

/-! ## Claim C4 -/

/-- C4 counterexample: a dataset that has every configured feature column
but no rows makes `train_test_split` raise, so no artifact is persisted
even though feature columns are present — the claim's "otherwise it always
persists an artifact" fails. -/
theorem c4_counterexample_empty_dataset :
    FEATURE_COLS.filter (fun c => (GDataset.mk FEATURE_COLS []).columns.contains c) ≠ [] ∧
      train_global_model FEATURE_COLS ⟨FEATURE_COLS, []⟩ =
        .error .emptySplit := by
  constructor
  · decide
  · rfl

/-- C4 as amended: the run fails with the spec's `SchemaMismatch` exactly
when no configured feature column is present in the dataset; otherwise,
provided the dataset has at least two rows (so the unshuffled 80/20 split
leaves both sides non-empty), it always persists the
`{model, feature_column_list}` artifact — in particular a single-class
validation set only makes the AUC diagnostic NaN and never blocks the
artifact.  With fewer than two rows the split itself raises and no
artifact is written, contrary to the claim as stated. -/
theorem c4_amended_global_trainer (featureConfig : List String)
    (ds : GDataset) :
    (featureConfig.filter (fun c => ds.columns.contains c) = [] →
      train_global_model featureConfig ds = .error .schemaMismatch) ∧
    (featureConfig.filter (fun c => ds.columns.contains c) ≠ [] →
      2 ≤ ds.targets.length →
      ∃ aucDefined,
        train_global_model featureConfig ds =
          .ok (⟨featureConfig.filter (fun c => ds.columns.contains c)⟩,
               aucDefined)) := by
  constructor
  · intro h
    simp only [train_global_model, h]
    rfl
  · intro h hn
    unfold train_global_model
    rw [if_neg (by simpa [List.isEmpty_iff] using h)]
    have hsplit : ds.targets.length - (ds.targets.length + 4) / 5 ≠ 0 := by
      omega
    rw [if_neg hsplit]
    exact ⟨_, rfl⟩

/-- Witness for C4 as amended: both branches hold at concrete inputs — a
dataset with no configured columns errs with `SchemaMismatch`, and a
two-row single-class dataset with a present column still yields an
artifact. -/
theorem c4_amended_global_trainer_witness :
    train_global_model ["Close"] ⟨["other"], [0, 1]⟩ =
        .error .schemaMismatch ∧
      ∃ aucDefined,
        train_global_model ["Close"] ⟨["Close", "other"], [0, 0]⟩ =
          .ok (⟨["Close"].filter
                (fun c => (GDataset.mk ["Close", "other"] [0, 0]).columns.contains c)⟩,
              aucDefined) :=
  ⟨(c4_amended_global_trainer ["Close"] ⟨["other"], [0, 1]⟩).1 (by decide),
   (c4_amended_global_trainer ["Close"] ⟨["Close", "other"], [0, 0]⟩).2
     (by decide) (by decide)⟩

/-! ## Hybrid Scorer and Screening Orchestrator
(`screen_hybrid.py` 55-212, `screen_hybrid`)

Modelling notes, traced from the source:
* the latest-feature-row collection (lines 104-113) supplies one row per
  instrument; it is the `rows` input here; `if not rows: return
  pd.DataFrame()` (115-117) is the empty check;
* feature assembly and zero-fill (121-131, 147-151) feed the opaque
  classifiers; the batched global inference (line 132) is the oracle
  `pgf`, and the per-instrument local load + inference with its
  catch-all exception handler (137-163) is the oracle `plf`, `none`
  standing for "no local model / inference failed" (`np.nan`);
* the sentiment stage (187-204) is the `refine` parameter: everything the
  `try` block does — the import, `apply_sentiment_filter`, and the final
  `head(top_n)` input — can raise, so it is modelled as `Except`;
* `sort_values("prob_hybrid", ascending=False)` is modelled by insertion
  sort under `prob_desc`, `head(n)` by `take n`. -/

/-- A latest feature row as consumed by the scorer: instrument code,
`Close`, `Volume` (its feature values live inside the probability
oracles). -/
structure InputRow where
  code : String
  close : ℚ
  volume : ℚ
deriving DecidableEq, Repr

/-- A scored candidate row
(`code, Close, Volume, prob_global, prob_local, prob_hybrid`). -/
structure Scored where
  code : String
  close : ℚ
  volume : ℚ
  prob_global : ℚ
  prob_local : Option ℚ
  prob_hybrid : ℚ
deriving DecidableEq, Repr

/-- A candidate row with the sentiment columns appended
(`news_sentiment.py` 353-354). -/
structure SentScored where
  base : Scored
  sentiment_score : Int
  sentiment_reason : String
deriving DecidableEq, Repr

/-- Descending-by-`prob_hybrid` comparison
(`sort_values("prob_hybrid", ascending=False)`). -/
def prob_desc (a b : Scored) : Prop := b.prob_hybrid ≤ a.prob_hybrid

instance : DecidableRel prob_desc :=
  fun _ _ => inferInstanceAs (Decidable (_ ≤ _))

instance : IsTotal Scored prob_desc :=
  ⟨fun a b => le_total b.prob_hybrid a.prob_hybrid⟩

instance : IsTrans Scored prob_desc :=
  ⟨fun _ _ _ h1 h2 => le_trans h2 h1⟩

/-- The same comparison on sentiment-annotated rows
(`news_sentiment.py` 358). -/
def sent_prob_desc (a b : SentScored) : Prop :=
  b.base.prob_hybrid ≤ a.base.prob_hybrid

instance : DecidableRel sent_prob_desc :=
  fun _ _ => inferInstanceAs (Decidable (_ ≤ _))

/-- Sort candidates descending by `prob_hybrid`. -/
def sort_desc (l : List Scored) : List Scored := l.insertionSort prob_desc

/-- One row of the scoring step (`screen_hybrid.py` 132, 137-179): global
probability, optional local probability, fused hybrid score. -/
def score_row (gw lw : ℚ) (pgf : InputRow → ℚ) (plf : InputRow → Option ℚ)
    (r : InputRow) : Scored :=
  { code := r.code, close := r.close, volume := r.volume,
    prob_global := pgf r, prob_local := plf r,
    prob_hybrid := hybrid_score gw lw (pgf r) (plf r) }

/-- The filter step (`screen_hybrid.py` 181-185):
`Volume >= min_volume` and `prob_hybrid >= min_prob`. -/
def qualifying (gw lw min_volume min_prob : ℚ) (pgf : InputRow → ℚ)
    (plf : InputRow → Option ℚ) (rows : List InputRow) : List Scored :=
  (rows.map (score_row gw lw pgf plf)).filter
    (fun r => decide (min_volume ≤ r.volume) && decide (min_prob ≤ r.prob_hybrid))

/-- Intermediate `pre_sentiment` (`screen_hybrid.py` 188-193): the filtered candidates
sorted descending, widened to `max(top_n, SENTIMENT_TOP_N)`. -/
def pre_sentiment (gw lw min_volume min_prob : ℚ) (top_n sent_top_n : Nat)
    (pgf : InputRow → ℚ) (plf : InputRow → Option ℚ)
    (rows : List InputRow) : List Scored :=
  (sort_desc (qualifying gw lw min_volume min_prob pgf plf rows)).take
    (max top_n sent_top_n)

/-- The value returned by a screening run: a plain candidate table, or one
with sentiment columns (returned only when refinement succeeded). -/
inductive ScreenOut
  | plain (rows : List Scored)
  | refined (rows : List SentScored)
deriving DecidableEq, Repr

/-- Function `screen_hybrid` (`screen_hybrid.py` 55-212), the data fetch
externalized into `rows`.  With `use_sentiment`, the refinement stage is
tried on the widened window and any exception falls back to the
pre-refinement filter-sort-truncate result (lines 195-206). -/
def screen_hybrid (gw lw min_volume min_prob : ℚ) (top_n sent_top_n : Nat)
    (use_sentiment : Bool) (pgf : InputRow → ℚ) (plf : InputRow → Option ℚ)
    (refine : List Scored → Except String (List SentScored))
    (rows : List InputRow) : ScreenOut :=
  if rows.isEmpty then .plain []
  else
    let filtered := qualifying gw lw min_volume min_prob pgf plf rows
    if use_sentiment then
      match refine
          (pre_sentiment gw lw min_volume min_prob top_n sent_top_n pgf plf rows) with
      | .ok res => .refined (res.take top_n)
      | .error _ => .plain ((sort_desc filtered).take top_n)
    else
      .plain ((sort_desc filtered).take top_n)

/-- Step 1 of `apply_sentiment_filter` (`news_sentiment.py` 307-312): on an
empty input return it unchanged, else sort descending by `prob_hybrid` and
keep the top `top_n` — this is the list of candidates the scoring loop
(lines 320-351) iterates over. -/
def sentiment_window (top_n : Nat) (cands : List Scored) : List Scored :=
  if cands.isEmpty then [] else (sort_desc cands).take top_n

/-- Function `apply_sentiment_filter` (`news_sentiment.py` 269-366): window, score
each candidate (the news fetch + Gemini call per ticker is the oracle
`score_of`), keep `sentiment_score >= min_score`, re-sort descending. -/
def apply_sentiment_filter (top_n : Nat) (min_score : Int)
    (score_of : String → Int × String) (cands : List Scored) :
    List SentScored :=
  if cands.isEmpty then []
  else
    let df := sentiment_window top_n cands
    let withSent := df.map
      (fun r => SentScored.mk r (score_of r.code).1 (score_of r.code).2)
    let kept := withSent.filter (fun r => decide (min_score ≤ r.sentiment_score))
    kept.insertionSort sent_prob_desc

/-- The set of candidates the sentiment scoring loop iterates over in a
full sentiment-refined run: `screen_hybrid` passes `pre_sentiment` to
`apply_sentiment_filter`, whose `top_n` defaults to
`config.SENTIMENT_TOP_N` (`news_sentiment.py` 300-301, 312). -/
def sentiment_submitted (gw lw min_volume min_prob : ℚ)
    (top_n sent_top_n : Nat) (pgf : InputRow → ℚ)
    (plf : InputRow → Option ℚ) (rows : List InputRow) : List Scored :=
  if rows.isEmpty then []
  else sentiment_window sent_top_n
    (pre_sentiment gw lw min_volume min_prob top_n sent_top_n pgf plf rows)

theorem sort_desc_sorted (l : List Scored) :
    (sort_desc l).Pairwise prob_desc :=
  List.sorted_insertionSort prob_desc l

theorem sort_desc_of_sorted {l : List Scored} (h : l.Pairwise prob_desc) :
    sort_desc l = l :=
  List.Sorted.insertionSort_eq h

/-! ## Claim C3 -/

/-- C3: a screening run without sentiment returns a plain result whose rows
all pass the volume and probability thresholds, sorted descending by
`prob_hybrid`, of length at most `top_n`; an empty latest-row set or an
empty qualifying set yields an empty result rather than an error. -/
theorem c3_screen_orchestrator (gw lw min_volume min_prob : ℚ)
    (top_n sent_top_n : Nat) (pgf : InputRow → ℚ)
    (plf : InputRow → Option ℚ)
    (refine : List Scored → Except String (List SentScored))
    (rows : List InputRow) :
    ∃ res,
      screen_hybrid gw lw min_volume min_prob top_n sent_top_n false
          pgf plf refine rows = .plain res ∧
      (∀ r ∈ res, min_volume ≤ r.volume ∧ min_prob ≤ r.prob_hybrid) ∧
      res.Pairwise (fun a b => b.prob_hybrid ≤ a.prob_hybrid) ∧
      res.length ≤ top_n ∧
      (rows = [] → res = []) ∧
      (qualifying gw lw min_volume min_prob pgf plf rows = [] → res = []) := by
  refine ⟨(sort_desc (qualifying gw lw min_volume min_prob pgf plf rows)).take
    top_n, ?_, ?_, ?_, ?_, ?_, ?_⟩
  · cases rows with
    | nil => simp [screen_hybrid, qualifying, sort_desc]
    | cons a l => simp [screen_hybrid]
  · intro r hr
    have hr2 : r ∈ qualifying gw lw min_volume min_prob pgf plf rows := by
      have := List.mem_of_mem_take hr
      rwa [sort_desc, List.mem_insertionSort] at this
    unfold qualifying at hr2
    rw [List.mem_filter] at hr2
    have := hr2.2
    simp only [Bool.and_eq_true, decide_eq_true_eq] at this
    exact this
  · exact List.Pairwise.sublist (List.take_sublist _ _) (sort_desc_sorted _)
  · exact List.length_take_le _ _
  · intro h; subst h; simp [qualifying, sort_desc]
  · intro h; rw [h]; simp [sort_desc]

/-- Witness for C3 at a concrete one-row run. -/
theorem c3_screen_orchestrator_witness :
    ∃ res,
      screen_hybrid 1 0 0 0 2 3 false (fun _ => 1) (fun _ => none)
          (fun _ => .error "") [⟨"A", 1, 1⟩] = .plain res ∧
      (∀ r ∈ res, (0 : ℚ) ≤ r.volume ∧ (0 : ℚ) ≤ r.prob_hybrid) ∧
      res.Pairwise (fun a b => b.prob_hybrid ≤ a.prob_hybrid) ∧
      res.length ≤ 2 ∧
      ([⟨"A", 1, 1⟩] = ([] : List InputRow) → res = []) ∧
      (qualifying 1 0 0 0 (fun _ => 1) (fun _ => none) [⟨"A", 1, 1⟩] = [] →
        res = []) :=
  c3_screen_orchestrator 1 0 0 0 2 3 (fun _ => 1) (fun _ => none)
    (fun _ => .error "") [⟨"A", 1, 1⟩]

/-! ## Claim C6 -/

/-- C6: when the sentiment refinement stage raises (an `error` result of
the modelled `try` block), the run catches it and returns the
pre-refinement filtered candidates sorted descending and truncated to
`top_n` — identical to the run without sentiment; the error never
propagates (the function still returns a `ScreenOut`). -/
theorem c6_sentiment_fallback (gw lw min_volume min_prob : ℚ)
    (top_n sent_top_n : Nat) (pgf : InputRow → ℚ)
    (plf : InputRow → Option ℚ)
    (refine : List Scored → Except String (List SentScored))
    (rows : List InputRow) (e : String)
    (h : refine (pre_sentiment gw lw min_volume min_prob top_n sent_top_n
          pgf plf rows) = .error e) :
    screen_hybrid gw lw min_volume min_prob top_n sent_top_n true
        pgf plf refine rows =
      .plain ((sort_desc (qualifying gw lw min_volume min_prob pgf plf
        rows)).take top_n) ∧
    screen_hybrid gw lw min_volume min_prob top_n sent_top_n true
        pgf plf refine rows =
      screen_hybrid gw lw min_volume min_prob top_n sent_top_n false
        pgf plf refine rows := by
  cases rows with
  | nil => constructor <;> simp [screen_hybrid, qualifying, sort_desc]
  | cons a l =>
    constructor
    · simp [screen_hybrid, h]
    · simp [screen_hybrid, h]

/-- Witness for C6: a concrete run whose refinement stage always raises. -/
theorem c6_sentiment_fallback_witness :
    screen_hybrid 1 0 0 0 2 3 true (fun _ => 1) (fun _ => none)
        (fun _ => .error "boom") [⟨"A", 1, 1⟩] =
      .plain ((sort_desc (qualifying 1 0 0 0 (fun _ => 1) (fun _ => none)
        [⟨"A", 1, 1⟩])).take 2) ∧
    screen_hybrid 1 0 0 0 2 3 true (fun _ => 1) (fun _ => none)
        (fun _ => .error "boom") [⟨"A", 1, 1⟩] =
      screen_hybrid 1 0 0 0 2 3 false (fun _ => 1) (fun _ => none)
        (fun _ => .error "boom") [⟨"A", 1, 1⟩] :=
  c6_sentiment_fallback 1 0 0 0 2 3 (fun _ => 1) (fun _ => none)
    (fun _ => .error "boom") [⟨"A", 1, 1⟩] "boom" rfl

/-! ## Claim C8 -/

/-- C8 counterexample: with `top_n = 2 > sent_top_n = 1` and two qualifying
candidates, the scoring loop receives one candidate, not the claimed
`max(top_n, sent_top_n) = 2` — `apply_sentiment_filter` narrows the widened
window back to `SENTIMENT_TOP_N` before scoring. -/
theorem c8_counterexample_window :
    sentiment_submitted 1 0 0 0 2 1 (fun _ => 1) (fun _ => none)
        [⟨"A", 1, 1⟩, ⟨"B", 1, 1⟩] ≠
      (sort_desc (qualifying 1 0 0 0 (fun _ => 1) (fun _ => none)
        [⟨"A", 1, 1⟩, ⟨"B", 1, 1⟩])).take (max 2 1) := by
  intro h
  have := congrArg List.length h
  simp [sentiment_submitted, sentiment_window, pre_sentiment, qualifying,
    sort_desc, score_row, hybrid_score, prob_desc] at this

/-- C8 as amended: the pre-refinement window is indeed widened to
`max(top_n, sentiment_top_n)`, but `apply_sentiment_filter` (called with
its default `top_n = SENTIMENT_TOP_N`) narrows it again, so the set
submitted to sentiment scoring is exactly the top `sentiment_top_n`
qualifying candidates by descending `prob_hybrid` — which matches the
claimed `max(top_n, sentiment_top_n)` window only when
`top_n ≤ sentiment_top_n` (true of the defaults 6 and 30). -/
theorem c8_amended_submitted_window (gw lw min_volume min_prob : ℚ)
    (top_n sent_top_n : Nat) (pgf : InputRow → ℚ)
    (plf : InputRow → Option ℚ) (rows : List InputRow) :
    pre_sentiment gw lw min_volume min_prob top_n sent_top_n pgf plf rows =
      (sort_desc (qualifying gw lw min_volume min_prob pgf plf rows)).take
        (max top_n sent_top_n) ∧
    sentiment_submitted gw lw min_volume min_prob top_n sent_top_n
        pgf plf rows =
      (sort_desc (qualifying gw lw min_volume min_prob pgf plf rows)).take
        sent_top_n := by
  refine ⟨rfl, ?_⟩
  unfold sentiment_submitted sentiment_window
  by_cases hrows : rows.isEmpty
  · rw [if_pos hrows]
    have : rows = [] := List.isEmpty_iff.mp hrows
    subst this
    simp [qualifying, sort_desc]
  · rw [if_neg hrows]
    set pre := pre_sentiment gw lw min_volume min_prob top_n sent_top_n
      pgf plf rows with hpre
    by_cases hp : pre.isEmpty
    · rw [if_pos hp]
      have hpe : pre = [] := List.isEmpty_iff.mp hp
      rw [hpre] at hpe
      unfold pre_sentiment at hpe
      rcases List.take_eq_nil_iff.mp hpe with hmax | hnil
      · have hs : sent_top_n = 0 := by
          have := Nat.le_max_right top_n sent_top_n
          omega
        rw [hs, List.take_zero]
      · rw [hnil, List.take_nil]
    · rw [if_neg hp]
      have hsorted : pre.Pairwise prob_desc := by
        rw [hpre]
        unfold pre_sentiment
        exact List.Pairwise.sublist (List.take_sublist _ _)
          (sort_desc_sorted _)
      rw [sort_desc_of_sorted hsorted, hpre]
      unfold pre_sentiment
      rw [List.take_take]
      rw [Nat.min_eq_left (Nat.le_max_right top_n sent_top_n)]

/-! ## Gemini response parsing
(`news_sentiment.py` 161-192 `_parse_gemini_response`,
215-262 `analyze_sentiment_gemini`)

Modelling notes, traced from the source:
* `re.sub(r"` + three backticks + `json\s*", "", text)` then the same
  without `json` are modelled by a left-to-right scan deleting each
  occurrence of the literal pattern together with the following whitespace
  run; `\s` is the ASCII whitespace class (the inputs here are ASCII);
* `re.search(r"\{[^}]+\}", ...)` is modelled by `extract_brace`: the
  earliest position holding an opening brace followed by one or more
  non-closing-brace characters and a closing brace — note this is the
  first *brace block*, not the first well-formed JSON object;
* `json.loads` on the extracted block is modelled by a parser for the
  objects such a block can hold: string keys (with escape sequences,
  `\u` groups and surrogate pairs decoded) and string / integer / float /
  `NaN` / `Infinity` / boolean / `null` / array values.  Because the
  extracted block contains no closing brace before its final character,
  nested objects cannot occur in it (Python rejects such truncated input
  too).  Floats are kept as exact scaled decimals — the file-wide
  floats-as-rationals convention — so double rounding, overflow to
  infinity past the double range, and negative zero are not modelled;
  an unpaired `\u` surrogate, which Python would keep inside the `str`,
  has no Lean character representation and is rejected here;
* `int(data.get("score", 0))` converts ints (bools included), truncates
  floats toward zero, and parses numeric strings; it raises on `null`,
  `NaN` and arrays — caught in the source, yielding `None` (`Infinity`
  raises `OverflowError`, caught one level up with the same default
  outcome); `str(data.get("reason", ""))[:50]` never raises and
  truncates to 50 code points, rendering non-string values with Python's
  `str` / `repr` rules as modelled below. -/

/-- The backtick character (code point 96). -/
def btick : Char := Char.ofNat 96

/-- The opening-brace character (code point 123). -/
def lbrace : Char := Char.ofNat 123

/-- The closing-brace character (code point 125). -/
def rbrace : Char := Char.ofNat 125

/-- Python's ASCII `\s` class: space, tab, newline, carriage return,
vertical tab, form feed. -/
def isPySpace (c : Char) : Bool :=
  c == ' ' || c == '\t' || c == '\n' || c == '\r' ||
    c == Char.ofNat 11 || c == Char.ofNat 12

/-- The pattern of the first `re.sub`: three backticks then `json`. -/
def fence_json_pat : List Char := [btick, btick, btick, 'j', 's', 'o', 'n']

/-- The pattern of the second `re.sub`: three backticks. -/
def fence_pat : List Char := [btick, btick, btick]

/-- Fuel-driven scan for `re.sub(pattern + "\s*", "", text)`: delete every
occurrence of the literal pattern and the whitespace run after it,
scanning left to right and resuming after each deletion.  `fuel` bounds
the recursion; `sub_fence` supplies `fuel = length`, enough because every
step consumes at least one character (the patterns used are non-empty). -/
def sub_fence_fuel (pat : List Char) : Nat → List Char → List Char
  | 0, l => l
  | _ + 1, [] => []
  | fuel + 1, c :: cs =>
    if pat.isPrefixOf (c :: cs) then
      sub_fence_fuel pat fuel (((c :: cs).drop pat.length).dropWhile isPySpace)
    else c :: sub_fence_fuel pat fuel cs

/-- Model of `re.sub(pattern + "\s*", "", text)` for a literal `pattern`. -/
def sub_fence (pat l : List Char) : List Char :=
  sub_fence_fuel pat l.length l

/-- Python `str.strip()` (ASCII whitespace). -/
def py_strip (l : List Char) : List Char :=
  ((l.dropWhile isPySpace).reverse.dropWhile isPySpace).reverse

/-- Model of `re.search` for the brace-block pattern: the first position with an opening
brace, at least one following non-closing-brace character, and a closing
brace; returns the matched block. -/
def extract_brace : List Char → Option (List Char)
  | [] => none
  | c :: cs =>
    if c = lbrace then
      let run := cs.takeWhile (fun d => !(d == rbrace))
      if run.length ≥ 1 ∧ run.length < cs.length then
        some (lbrace :: (run ++ [rbrace]))
      else extract_brace cs
    else extract_brace cs

/-- A JSON value as Python `json.loads` can produce inside the extracted
brace block: strings, integers, floats (kept as the exact scaled decimal
`mant · 10 ^ exp10` — the file-wide floats-as-rationals convention), the
`NaN` / `Infinity` / `-Infinity` constants Python's decoder accepts,
booleans, `null`, and (nested) arrays.  Objects cannot occur as values: a
nested object needs its own closing brace and the extracted block contains
none before its final character (Python rejects such truncated input
too). -/
inductive JVal
  | jstr (s : String)
  | jint (n : Int)
  | jfloat (mant exp10 : Int)
  | jnan
  | jinf (neg : Bool)
  | jbool (b : Bool)
  | jnull
  | jarr (elems : List JVal)

/-- JSON's whitespace set. -/
def is_json_ws (c : Char) : Bool :=
  c == ' ' || c == '\t' || c == '\n' || c == '\r'

/-- One single-character JSON string escape (`\u` escapes are handled
separately in `parse_jstring_aux`, which consumes their hex digits). -/
def esc_char : Char → Option Char
  | '"' => some '"'
  | '\\' => some '\\'
  | '/' => some '/'
  | 'b' => some (Char.ofNat 8)
  | 'f' => some (Char.ofNat 12)
  | 'n' => some '\n'
  | 'r' => some '\r'
  | 't' => some '\t'
  | _ => none

/-- Value of one hexadecimal digit, either case. -/
def hex_digit_val (c : Char) : Option Nat :=
  if c.isDigit then some (c.toNat - 48)
  else if 97 ≤ c.toNat ∧ c.toNat ≤ 102 then some (c.toNat - 87)
  else if 65 ≤ c.toNat ∧ c.toNat ≤ 70 then some (c.toNat - 55)
  else none

/-- Value of a four-hex-digit escape group. -/
def hex4_val (a b c d : Char) : Option Nat :=
  match hex_digit_val a, hex_digit_val b, hex_digit_val c, hex_digit_val d with
  | some x, some y, some z, some w => some (((x * 16 + y) * 16 + z) * 16 + w)
  | _, _, _, _ => none

/-- Parse the remainder of a JSON string literal (the opening quote
already consumed).  JSON rejects raw control characters; `\u` escapes are
decoded and surrogate pairs combined into one code point.  An unpaired
surrogate — which Python would keep inside the `str` — has no Lean
character representation and is out of modelled scope (rejected here). -/
def parse_jstring_aux : List Char → Option (List Char × List Char)
  | [] => none
  | c :: cs =>
    if c = '"' then some ([], cs)
    else if c = '\\' then
      match cs with
      | 'u' :: h1 :: h2 :: h3 :: h4 :: rest =>
        match hex4_val h1 h2 h3 h4 with
        | none => none
        | some v =>
          if 0xD800 ≤ v ∧ v ≤ 0xDBFF then
            match rest with
            | '\\' :: 'u' :: g1 :: g2 :: g3 :: g4 :: rest2 =>
              match hex4_val g1 g2 g3 g4 with
              | none => none
              | some w =>
                if 0xDC00 ≤ w ∧ w ≤ 0xDFFF then
                  (parse_jstring_aux rest2).map (fun p =>
                    (Char.ofNat
                        (0x10000 + (v - 0xD800) * 0x400 + (w - 0xDC00)) :: p.1,
                      p.2))
                else none
            | _ => none
          else if 0xDC00 ≤ v ∧ v ≤ 0xDFFF then none
          else (parse_jstring_aux rest).map (fun p => (Char.ofNat v :: p.1, p.2))
      | e :: cs2 =>
        match esc_char e with
        | none => none
        | some r => (parse_jstring_aux cs2).map (fun p => (r :: p.1, p.2))
      | [] => none
    else if c.toNat < 32 then none
    else (parse_jstring_aux cs).map (fun p => (c :: p.1, p.2))

/-- Decimal value of a digit run. -/
def digits_to_nat (l : List Char) : Nat :=
  l.foldl (fun acc c => acc * 10 + (c.toNat - 48)) 0

/-- Parse the tail of a JSON exponent (after `e` / `E`): optional sign and
a non-empty digit run.  Returns (negative sign, digits, remainder, ok). -/
def exp_tail (r : List Char) : Bool × List Char × List Char × Bool :=
  let (sgn, r1) := match r with
    | '+' :: t => (false, t)
    | '-' :: t => (true, t)
    | _ => (false, r)
  let es := r1.takeWhile (·.isDigit)
  (sgn, es, r1.drop es.length, !es.isEmpty)

/-- Parse a JSON number: optional minus; `0` or a run not starting with
`0`; optional fraction `.` digits; optional exponent.  Without fraction
and exponent Python yields an `int`, otherwise a `float`, kept here as the
exact scaled decimal `mant · 10 ^ exp10` (double rounding, overflow to
infinity past the double range, and the sign of negative zero are not
modelled — the floats-as-rationals convention). -/
def parse_jnumber (l : List Char) : Option (JVal × List Char) :=
  let (neg, l1) := match l with
    | '-' :: r => (true, r)
    | _ => (false, l)
  let ids := l1.takeWhile (·.isDigit)
  match ids with
  | [] => none
  | d0 :: drest =>
    if d0 = '0' ∧ drest ≠ [] then none
    else
      let afterInt := l1.drop ids.length
      let (fdigits, afterFrac, fracOk) :=
        match afterInt with
        | '.' :: r =>
          let fs := r.takeWhile (·.isDigit)
          (fs, r.drop fs.length, !fs.isEmpty)
        | _ => (([] : List Char), afterInt, true)
      if !fracOk then none
      else
        let (hasExp, expNeg, edigits, afterExp, expOk) :=
          match afterFrac with
          | 'e' :: r =>
            let t := exp_tail r
            (true, t.1, t.2.1, t.2.2.1, t.2.2.2)
          | 'E' :: r =>
            let t := exp_tail r
            (true, t.1, t.2.1, t.2.2.1, t.2.2.2)
          | _ => (false, false, ([] : List Char), afterFrac, true)
        if !expOk then none
        else
          let mantNat := digits_to_nat (ids ++ fdigits)
          let mant : Int := if neg then -(mantNat : Int) else (mantNat : Int)
          if fdigits.isEmpty && !hasExp then some (.jint mant, afterInt)
          else
            let e : Int :=
              (if expNeg then -(digits_to_nat edigits : Int)
                else (digits_to_nat edigits : Int)) - (fdigits.length : Int)
            some (.jfloat mant e, afterExp)

mutual
/-- Parse one JSON value.  `fuel` bounds the nesting of arrays; callers
pass fuel exceeding the input length, enough because each nesting level
consumes at least one character. -/
def parse_jval : Nat → List Char → Option (JVal × List Char)
  | 0, _ => none
  | fuel + 1, l =>
    match l with
    | [] => none
    | c :: cs =>
      if c = '"' then
        (parse_jstring_aux cs).map (fun p => (.jstr (String.mk p.1), p.2))
      else if ['-', 'I', 'n', 'f', 'i', 'n', 'i', 't', 'y'].isPrefixOf l then
        some (.jinf true, l.drop 9)
      else if c == '-' || c.isDigit then
        parse_jnumber l
      else if ['t', 'r', 'u', 'e'].isPrefixOf l then some (.jbool true, l.drop 4)
      else if ['f', 'a', 'l', 's', 'e'].isPrefixOf l then
        some (.jbool false, l.drop 5)
      else if ['n', 'u', 'l', 'l'].isPrefixOf l then some (.jnull, l.drop 4)
      else if ['N', 'a', 'N'].isPrefixOf l then some (.jnan, l.drop 3)
      else if ['I', 'n', 'f', 'i', 'n', 'i', 't', 'y'].isPrefixOf l then
        some (.jinf false, l.drop 8)
      else if c = '[' then
        match cs.dropWhile is_json_ws with
        | ']' :: r => some (.jarr [], r)
        | _ =>
          match parse_jarr_elems fuel cs with
          | none => none
          | some (vs, rest) => some (.jarr vs, rest)
      else none

/-- Parse the comma-separated elements of a JSON array, up to and
including the closing bracket. -/
def parse_jarr_elems : Nat → List Char → Option (List JVal × List Char)
  | 0, _ => none
  | fuel + 1, l =>
    match parse_jval fuel (l.dropWhile is_json_ws) with
    | none => none
    | some (v, rest) =>
      match rest.dropWhile is_json_ws with
      | ',' :: r2 => (parse_jarr_elems fuel r2).map (fun p => (v :: p.1, p.2))
      | ']' :: r2 => some ([v], r2)
      | _ => none
end

/-- Parse the members of a JSON object: `"key" : value` pairs separated by
commas, whitespace tolerated; stops before the closing brace.  `fuel`
bounds the recursion (each member consumes at least one character). -/
def parse_members : Nat → List Char → Option (List (String × JVal) × List Char)
  | 0, _ => none
  | fuel + 1, l =>
    match l.dropWhile is_json_ws with
    | '"' :: cs =>
      match parse_jstring_aux cs with
      | none => none
      | some (key, rest) =>
        match rest.dropWhile is_json_ws with
        | ':' :: rest2 =>
          match parse_jval ((rest2.dropWhile is_json_ws).length + 1)
              (rest2.dropWhile is_json_ws) with
          | none => none
          | some (v, rest3) =>
            match rest3.dropWhile is_json_ws with
            | ',' :: rest5 =>
              (parse_members fuel rest5).map
                (fun p => ((String.mk key, v) :: p.1, p.2))
            | rest4 => some ([(String.mk key, v)], rest4)
        | _ => none
    | _ => none

/-- Model of `json.loads` on an extracted brace block: optional
surrounding whitespace, one object of the modelled value shapes, nothing
after. -/
def json_loads_obj (l : List Char) : Option (List (String × JVal)) :=
  match l.dropWhile is_json_ws with
  | [] => none
  | c :: cs =>
    if c = lbrace then
      match cs.dropWhile is_json_ws with
      | [] => none
      | d :: ds =>
        if d = rbrace then
          if ds.dropWhile is_json_ws = [] then some [] else none
        else
          match parse_members (cs.length + 1) cs with
          | none => none
          | some (obj, rest) =>
            match rest with
            | r :: rs =>
              if r = rbrace ∧ rs.dropWhile is_json_ws = [] then some obj
              else none
            | [] => none
    else none

/-- Model of `data.get(key)` on the dict `json.loads` builds: with duplicate keys
the last occurrence wins. -/
def jget (obj : List (String × JVal)) (k : String) : Option JVal :=
  (obj.reverse.find? (fun p => p.1 == k)).map (·.2)

/-- Model of the digit grammar Python `int(str)` accepts after sign and
whitespace removal: ASCII digits with single underscores strictly between
digits.  (Non-ASCII digit characters, which Python would also accept, are
out of modelled scope.) -/
def py_int_digits (l : List Char) : Option Nat :=
  if l.isEmpty then none
  else if l.head? = some '_' ∨ l.getLast? = some '_' then none
  else if (l.zip (l.drop 1)).any (fun p => p.1 == '_' && p.2 == '_') then none
  else if l.all (fun c => c.isDigit || c == '_') then
    some (digits_to_nat (l.filter (·.isDigit)))
  else none

/-- Python `int(s)` on a string: surrounding whitespace and one sign
allowed, then digits (with Python's digit-group underscores). -/
def py_int_of_string (s : String) : Option Int :=
  match py_strip s.data with
  | '-' :: rest => (py_int_digits rest).map (fun n => -(n : Int))
  | '+' :: rest => (py_int_digits rest).map (fun n => (n : Int))
  | l => (py_int_digits l).map (fun n => (n : Int))

/-- Truncation of the exact scaled decimal `mant · 10 ^ exp10` toward
zero: the value Python `int()` produces on a float. -/
def py_float_trunc (mant exp10 : Int) : Int :=
  if 0 ≤ exp10 then mant * (10 : Int) ^ exp10.toNat
  else Int.tdiv mant ((10 : Int) ^ (-exp10).toNat)

/-- Model of `int(data.get("score", 0))`: absent key defaults to `0`;
ints pass through, floats truncate toward zero, bools convert, numeric
strings parse; `null` and arrays raise `TypeError` and `NaN` raises
`ValueError`, caught in `_parse_gemini_response` (`none`); `Infinity`
raises `OverflowError`, which escapes `_parse_gemini_response` but lands
in the caller's blanket handler with the same default outcome, so it is
folded into `none` here. -/
def py_int_of : Option JVal → Option Int
  | none => some 0
  | some (.jint n) => some n
  | some (.jfloat m e) => some (py_float_trunc m e)
  | some (.jbool b) => some (if b then 1 else 0)
  | some (.jstr s) => py_int_of_string s
  | some .jnan => none
  | some (.jinf _) => none
  | some .jnull => none
  | some (.jarr _) => none

/-- Zero characters, `n` of them. -/
def zeros (n : Nat) : List Char := List.replicate n '0'

/-- Strip trailing zero digits of a digit run, counting them. -/
def strip_zeros (l : List Char) : List Char × Nat :=
  let r := (l.reverse.dropWhile (· == '0')).reverse
  (r, l.length - r.length)

/-- Model of Python `str()` on the float `mant · 10 ^ exp10`: fixed-point
decimal rendering of the exact value with minimal fractional digits (at
least one, so integral floats end in `.0`).  Python renders the shortest
repr of the nearest double and switches to scientific notation outside
`1e-4 ≤ |x| < 1e16`; on short decimals the two agree — the thresholds,
double rounding, and the sign of negative zero are not modelled
(floats-as-rationals convention). -/
def py_float_repr (mant exp10 : Int) : String :=
  let sign : List Char := if mant < 0 then ['-'] else []
  let (ds0, k) := strip_zeros (toString mant.natAbs).data
  if ds0.isEmpty then "0.0"
  else
    let e := exp10 + (k : Int)
    let body :=
      if 0 ≤ e then ds0 ++ zeros e.toNat ++ ['.', '0']
      else
        let fr := (-e).toNat
        if ds0.length > fr then
          ds0.take (ds0.length - fr) ++ '.' :: ds0.drop (ds0.length - fr)
        else ['0', '.'] ++ zeros (fr - ds0.length) ++ ds0
    String.mk (sign ++ body)

/-- Lowercase hexadecimal digit character. -/
def hex_char (n : Nat) : Char :=
  if n < 10 then Char.ofNat (48 + n) else Char.ofNat (87 + n)

/-- The apostrophe character (code point 39). -/
def apos : Char := Char.ofNat 39

/-- Model of Python `repr()` on a `str`: single-quoted unless the string
contains a single quote and no double quote; backslash and the quote
escaped, newline / carriage return / tab mnemonic-escaped, other ASCII
control characters and DEL hex-escaped.  (Python additionally
category-escapes non-printable non-ASCII characters; out of modelled
scope.) -/
def py_repr_str (s : String) : String :=
  let q := if s.data.contains apos ∧ ¬ s.data.contains '"' then '"' else apos
  let esc := s.data.foldr (fun c acc =>
    (if c = '\\' then ['\\', '\\']
     else if c = q then ['\\', q]
     else if c = '\n' then ['\\', 'n']
     else if c = '\r' then ['\\', 'r']
     else if c = '\t' then ['\\', 't']
     else if c.toNat < 32 ∨ c.toNat = 127 then
       ['\\', 'x', hex_char (c.toNat / 16), hex_char (c.toNat % 16)]
     else [c]) ++ acc) []
  String.mk (q :: esc ++ [q])

mutual
/-- Model of Python `repr()` on the modelled JSON-derived values (list
elements are rendered with `repr`, not `str`). -/
def py_repr : JVal → String
  | .jstr s => py_repr_str s
  | .jint n => toString n
  | .jfloat m e => py_float_repr m e
  | .jnan => "nan"
  | .jinf neg => if neg then "-inf" else "inf"
  | .jbool b => if b then "True" else "False"
  | .jnull => "None"
  | .jarr vs => String.mk ('[' :: (py_repr_elems vs).data ++ [']'])

/-- Comma-separated `repr`s of the elements of a list. -/
def py_repr_elems : List JVal → String
  | [] => ""
  | [v] => py_repr v
  | v :: vs => py_repr v ++ ", " ++ py_repr_elems vs
end

/-- Model of `str(data.get("reason", ""))`: absent key defaults to `""`;
Python string conversions of the modelled values (`str` of a list renders
its elements with `repr`). -/
def py_str_of : Option JVal → String
  | none => ""
  | some (.jstr s) => s
  | some (.jint n) => toString n
  | some (.jfloat m e) => py_float_repr m e
  | some .jnan => "nan"
  | some (.jinf neg) => if neg then "-inf" else "inf"
  | some (.jbool b) => if b then "True" else "False"
  | some .jnull => "None"
  | some (.jarr vs) => String.mk ('[' :: (py_repr_elems vs).data ++ [']'])

/-- Function `_parse_gemini_response` (`news_sentiment.py` 161-192): empty text
fails; remove code fences, strip, extract the first brace block, parse it
as JSON, convert the score with `int(...)` and truncate the reason to 50
code points; succeed only for a score in `1..5`. -/
def parse_gemini_response (text : String) : Option (Int × String) :=
  if text.data.isEmpty then none
  else
    match extract_brace
        (py_strip (sub_fence fence_pat (sub_fence fence_json_pat text.data))) with
    | none => none
    | some block =>
      match json_loads_obj block with
      | none => none
      | some obj =>
        match py_int_of (jget obj "score") with
        | none => none
        | some score =>
          if 1 ≤ score ∧ score ≤ 5 then
            some (score, String.mk ((py_str_of (jget obj "reason")).data.take 50))
          else none

/-- Function `analyze_sentiment_gemini` (`news_sentiment.py` 195-262): the missing
dependency / missing key / empty-headline guards, then the API call (its
whole `try` block modelled as an `Except`) and the parse, with the default
neutral result on every failure path. -/
def analyze_sentiment_gemini (genai_available api_key_present : Bool)
    (default_score : Int) (headlines : List String)
    (api_response : Except String String) : Int × String :=
  if !genai_available then (default_score, "判定不能")
  else if !api_key_present then (default_score, "判定不能")
  else if headlines.isEmpty then (default_score, "ニュースなし")
  else
    match api_response with
    | .error _ => (default_score, "判定不能")
    | .ok raw =>
      match parse_gemini_response raw with
      | some r => r
      | none => (default_score, "判定不能")

/-! ## Claim C7 -/

/-- C7 counterexample: a response text that does contain a well-formed
JSON object with score 4 and a reason string, surrounded only by the prose
fragment `(oops)` in braces — yet the parser extracts the *first brace
block*, fails to parse it, and the call yields the default neutral score
and the fixed undeterminable reason instead of score 4. -/
theorem c7_counterexample_prose_brace_block :
    json_loads_obj ("\x7b\"score\": 4, \"reason\": \"good\"\x7d".data) =
      some [("score", .jint 4), ("reason", .jstr "good")] ∧
    parse_gemini_response
        ("\x7boops\x7d " ++ "\x7b\"score\": 4, \"reason\": \"good\"\x7d") =
      none ∧
    analyze_sentiment_gemini true true 3 ["headline"]
        (.ok ("\x7boops\x7d " ++ "\x7b\"score\": 4, \"reason\": \"good\"\x7d")) =
      (3, "判定不能") := by
  refine ⟨rfl, ?_, ?_⟩ <;> decide

/-- C7 as amended: a successful parse always carries a score in `1..5` and
a reason of at most 50 code points; a response whose de-fenced, stripped
text's *first brace-delimited block* is a well-formed flat JSON object
whose `score` converts to an integer in `1..5` yields that score with the
reason truncated to 50; an API error, an empty-headline set, a failed
parse, or an out-of-range score yield the configured default score with
the fixed reason (undeterminable / no-news), and a successful parse is
returned unchanged — nothing escapes the boundary. -/
theorem c7_amended_sentiment_parse :
    (∀ (text : String) (s : Int) (r : String),
        parse_gemini_response text = some (s, r) →
          1 ≤ s ∧ s ≤ 5 ∧ r.length ≤ 50) ∧
    (∀ (text : String) (block : List Char) (obj : List (String × JVal))
        (s : Int),
        extract_brace (py_strip (sub_fence fence_pat
            (sub_fence fence_json_pat text.data))) = some block →
        json_loads_obj block = some obj →
        py_int_of (jget obj "score") = some s →
        1 ≤ s → s ≤ 5 →
        parse_gemini_response text =
          some (s, String.mk ((py_str_of (jget obj "reason")).data.take 50))) ∧
    (∀ (ds : Int) (hs : List String) (e : String),
        analyze_sentiment_gemini true true ds hs (.error e) =
          if hs.isEmpty then (ds, "ニュースなし") else (ds, "判定不能")) ∧
    (∀ (ds : Int) (hs : List String) (raw : String),
        ¬ hs.isEmpty = true → parse_gemini_response raw = none →
        analyze_sentiment_gemini true true ds hs (.ok raw) = (ds, "判定不能")) ∧
    (∀ (ds : Int) (hs : List String) (raw : String) (p : Int × String),
        ¬ hs.isEmpty = true → parse_gemini_response raw = some p →
        analyze_sentiment_gemini true true ds hs (.ok raw) = p) := by
  refine ⟨?_, ?_, ?_, ?_, ?_⟩
  · intro text s r h
    simp only [parse_gemini_response] at h
    split at h
    · exact absurd h (by simp)
    · split at h
      · exact absurd h (by simp)
      · split at h
        · exact absurd h (by simp)
        · split at h
          · exact absurd h (by simp)
          · split at h
            · rename_i hrange
              obtain ⟨h1, h2⟩ := hrange
              simp only [Option.some.injEq, Prod.mk.injEq] at h
              obtain ⟨hval, hr⟩ := h
              subst hval
              subst hr
              exact ⟨h1, h2, List.length_take_le _ _⟩
            · exact absurd h (by simp)
  · intro text block obj s h1 h2 h3 h4 h5
    have he : ¬ text.data.isEmpty = true := by
      intro he
      rw [List.isEmpty_iff.mp he] at h1
      simp [sub_fence, sub_fence_fuel, py_strip, extract_brace] at h1
    simp only [parse_gemini_response, if_neg he, h1, h2, h3]
    rw [if_pos ⟨h4, h5⟩]
  · intro ds hs e
    by_cases hh : hs.isEmpty <;>
      simp [analyze_sentiment_gemini, hh]
  · intro ds hs raw hh hp
    simp [analyze_sentiment_gemini, hh, hp]
  · intro ds hs raw p hh hp
    simp [analyze_sentiment_gemini, hh, hp]

/-- Witness for C7 as amended, at a code-fenced response carrying score 5:
the parse yields the score and the (under-50-character) reason. -/
theorem c7_amended_sentiment_parse_witness :
    parse_gemini_response "```json\n\x7b\"score\": 5, \"reason\": \"ok\"\x7d\n```" =
      some (5, String.mk ((py_str_of (jget
        [("score", JVal.jint 5), ("reason", JVal.jstr "ok")]
        "reason")).data.take 50)) :=
  c7_amended_sentiment_parse.2.1
    "```json\n\x7b\"score\": 5, \"reason\": \"ok\"\x7d\n```"
    ("\x7b\"score\": 5, \"reason\": \"ok\"\x7d".data)
    [("score", JVal.jint 5), ("reason", JVal.jstr "ok")] 5
    (by decide) rfl rfl (by decide) (by decide)

end AutoScreening
